import Mathlib

/-!
# CLAP plugin wrapper and thread-pool extension

A shallow embedding of

* `src/include/clap/ext/draft/thread-pool.h`: the two extension tables and the
  documented usage `myplug_process` / `myplug_thread_pool_exec`;
* `src/examples/plugins/plugin.hh`: the state, the default hooks and the cached
  host-info accessors of the convenience base class `clap::Plugin`.

A C pointer is an `Option`: `none` is the null pointer.  A call across the
plugin/host boundary is an entry of a call log, in program order.
-/

set_option autoImplicit false

namespace clap

/-! ## thread-pool.h -/

/-- The host table `clap_host_thread_pool` (thread-pool.h:46-56).  It declares a
single member, the function pointer `request_exec`, which may be null; a host
callback is taken by its answer to `num_tasks` ("true if the host did execute
all the tasks, false if it rejected the request").  The `host` argument is the
same handle at every call and is left out. -/
structure clap_host_thread_pool where
  request_exec : Option (Nat → Bool)

/-- The calls `myplug_process` makes, in program order: the request to the host
(thread-pool.h:30) and the direct call of `myplug_thread_pool_exec`
(thread-pool.h:34), each with the integer argument it is passed. -/
inductive Call where
  | request_exec (num_tasks : Nat)
  | exec (voice_index : Nat)
  deriving DecidableEq, Repr

/-- The state `myplug_process` threads through its statements: the local
`didComputeVoices` and the calls made so far. -/
structure ProcessRun where
  didComputeVoices : Bool
  calls : List Call
  deriving DecidableEq, Repr

/-- The plugin callback `myplug_thread_pool_exec(plugin, voice_index)`
(thread-pool.h:20-23): it computes the voice it is given, recorded as one
`Call.exec`. -/
def myplug_thread_pool_exec (voice_index : Nat) (calls : List Call) : List Call :=
  calls ++ [Call.exec voice_index]

/-- The fallback loop of thread-pool.h:33-34,
`for (uint32_t i = 0; i < N; ++i) myplug_thread_pool_exec(plugin, N);`
started at loop counter `i`.  The argument of the call is `N`, as in the
source.  The counter stays below `N`, so the `uint32_t` increment never
wraps. -/
def fallback_loop (N : Nat) (i : Nat) (calls : List Call) : List Call :=
  if i < N then fallback_loop N (i + 1) (myplug_thread_pool_exec N calls) else calls
termination_by N - i

/-- The guarded request of thread-pool.h:28-30:
`bool didComputeVoices = false;`
`if (host_thread_pool && host_thread_pool.exec)`
`   didComputeVoices = host_thread_pool.request_exec(host, plugin, N);`
The second conjunct of the guard tests the function pointer of the table (the
table has the one member, which the guard calls `exec`) for null. -/
def request_phase (host_thread_pool : Option clap_host_thread_pool) (N : Nat) : ProcessRun :=
  match host_thread_pool with
  | none => { didComputeVoices := false, calls := [] }
  | some table =>
    match table.request_exec with
    | none => { didComputeVoices := false, calls := [] }
    | some f => { didComputeVoices := f N, calls := [Call.request_exec N] }

/-- The documented usage `myplug_process` (thread-pool.h:25-36): the guarded
request, then `if (!didComputeVoices)` the fallback loop. -/
def myplug_process (host_thread_pool : Option clap_host_thread_pool) (N : Nat) : ProcessRun :=
  let run := request_phase host_thread_pool N
  if !run.didComputeVoices then
    { run with calls := fallback_loop N 0 run.calls }
  else
    run

/-- The task indices of the direct `exec` calls in a call log, in order. -/
def execIndices : List Call → List Nat
  | [] => []
  | Call.exec i :: rest => i :: execIndices rest
  | Call.request_exec _ :: rest => execIndices rest

/-- The task counts of the `request_exec` calls in a call log, in order. -/
def requestCounts : List Call → List Nat
  | [] => []
  | Call.request_exec n :: rest => n :: requestCounts rest
  | Call.exec _ :: rest => requestCounts rest

/-! ## plugin.hh -/

/-- Modelled from the spec: the enumeration `clap_chmap` and its member
`CLAP_CHMAP_STEREO` are declared in `clap/all.h`, which is not under src/.  The
glossary of the spec describes it: "Channel map: enumerated layout of audio
channels within a port (e.g., stereo, mono, surround)". -/
inductive clap_chmap where
  | CLAP_CHMAP_MONO
  | CLAP_CHMAP_STEREO
  | CLAP_CHMAP_SURROUND
  deriving DecidableEq, Repr

/-- Modelled from the spec: the structure `clap_track_info` is declared in
`clap/all.h`, which is not under src/.  The spec has "Track Info snapshot:
optional cached {channel_count, channel_map}"; `trackChannelCount` returns the
count as a `uint32_t`. -/
structure clap_track_info where
  channel_count : Nat
  channel_map : clap_chmap
  deriving DecidableEq, Repr

/-- Modelled from the spec: the type `clap_process_status` and its member
`CLAP_PROCESS_SLEEP` are declared in `clap/all.h`, which is not under src/.  The
spec has: process "returns a status (e.g., "continue" or "may sleep until next
event")", and every entry point signals failure "through an explicit status
code". -/
inductive clap_process_status where
  | CLAP_PROCESS_ERROR
  | CLAP_PROCESS_CONTINUE
  | CLAP_PROCESS_SLEEP
  deriving DecidableEq, Repr

/-- Modelled from the spec: the structure `clap_audio_port_info` is declared in
`clap/all.h`, which is not under src/.  The spec has "Audio Port Descriptor:
{index, direction (input/output), channel count, channel-map enum, stable
identity for matching across redefinitions}". -/
structure clap_audio_port_info where
  index : Nat
  is_input : Bool
  channel_count : Nat
  channel_map : clap_chmap
  id : Nat
  deriving DecidableEq, Repr

/-- The failure of an `assert` of `<cassert>`, with assertions compiled in. -/
inductive AssertionFailure where
  | hasTrackInfo_
  deriving DecidableEq, Repr

/-- The data members of `clap::Plugin` that hold the host handle, the cached
host tables (plugin.hh:128-141) and the state (plugin.hh:176-186).  A table
whose declaration is not under src/ is kept as the address it is cached at.
The plugin-side tables of plugin.hh:109-126 and `plugin_` carry function
pointers only and are left out. -/
structure Plugin where
  host_ : Option Nat
  hostLog_ : Option Nat
  hostThreadCheck_ : Option Nat
  hostThreadPool_ : Option clap_host_thread_pool
  hostAudioPorts_ : Option Nat
  hostEventFilter_ : Option Nat
  hostFileReference_ : Option Nat
  hostLatency_ : Option Nat
  hostGui_ : Option Nat
  hostEventLoop_ : Option Nat
  hostParams_ : Option Nat
  hostTrackInfo_ : Option Nat
  hostState_ : Option Nat
  hostNoteName_ : Option Nat
  isActive_ : Bool
  isProcessing_ : Bool
  sampleRate_ : Int
  hasTrackInfo_ : Bool
  trackInfo_ : clap_track_info
  scheduleAudioPortsUpdate_ : Bool
  inputAudioPorts_ : List clap_audio_port_info
  outputAudioPorts_ : List clap_audio_port_info

namespace Plugin

/-- Modelled from the spec: the constructor `Plugin(desc, host)` is declared at
plugin.hh:16 and its body is not under src/.  The spec has the instance
"created by the factory given a descriptor and a host handle", borrowing the
handle for its lifetime.  The model stores the handle and leaves every other
member at its default member initialiser (plugin.hh:129-141, 177-181, 184);
the two vectors are default-constructed, hence empty; `trackInfo_`
(plugin.hh:182) has no initialiser, so its content is whatever the storage
holds, a parameter here.  The descriptor goes to the `plugin_` table. -/
def construct (host : Option Nat) (uninitialised : clap_track_info) : Plugin :=
  { host_ := host
    hostLog_ := none
    hostThreadCheck_ := none
    hostThreadPool_ := none
    hostAudioPorts_ := none
    hostEventFilter_ := none
    hostFileReference_ := none
    hostLatency_ := none
    hostGui_ := none
    hostEventLoop_ := none
    hostParams_ := none
    hostTrackInfo_ := none
    hostState_ := none
    hostNoteName_ := none
    isActive_ := false
    isProcessing_ := false
    sampleRate_ := 0
    hasTrackInfo_ := false
    trackInfo_ := uninitialised
    scheduleAudioPortsUpdate_ := false
    inputAudioPorts_ := []
    outputAudioPorts_ := [] }

/-! ### Methods to override (plugin.hh:29-45)

A virtual method runs on a non-const `this`: it returns its result together with
the state it leaves. -/

/-- The default `virtual bool init() { return true; }` (plugin.hh:29). -/
def init (p : Plugin) : Bool × Plugin := (true, p)

/-- The default `virtual bool activate(int sample_rate) { return true; }`
(plugin.hh:30). -/
def activate (p : Plugin) (_sample_rate : Int) : Bool × Plugin := (true, p)

/-- The default `virtual void deactivate() {}` (plugin.hh:31). -/
def deactivate (p : Plugin) : Plugin := p

/-- The default `virtual bool startProcessing() { return true; }`
(plugin.hh:32). -/
def startProcessing (p : Plugin) : Bool × Plugin := (true, p)

/-- The default `virtual void stopProcessing() {}` (plugin.hh:33). -/
def stopProcessing (p : Plugin) : Plugin := p

/-- The default `process(const clap_process *process)`, which returns
`CLAP_PROCESS_SLEEP` (plugin.hh:34-36).  The block type is declared outside
src/ and is a type parameter. -/
def process {clap_process : Type} (p : Plugin) (_process : Option clap_process) :
    clap_process_status × Plugin :=
  (clap_process_status.CLAP_PROCESS_SLEEP, p)

/-- The default `virtual const void *extension(const char *id) { return nullptr; }`
(plugin.hh:37). -/
def extension (p : Plugin) (_id : Option String) : Option Nat × Plugin := (none, p)

/-- The default `defineAudioPorts(inputPorts, outputPorts) {}` (plugin.hh:39-40):
the two vectors are passed by reference and returned as the body leaves
them. -/
def defineAudioPorts (p : Plugin) (inputPorts outputPorts : List clap_audio_port_info) :
    List clap_audio_port_info × List clap_audio_port_info × Plugin :=
  (inputPorts, outputPorts, p)

/-- The default `shouldInvalidateAudioPortsDefinitionOnTrackChannelChange() const`
(plugin.hh:41-43). -/
def shouldInvalidateAudioPortsDefinitionOnTrackChannelChange (_p : Plugin) : Bool := false

/-- The default `virtual void trackInfoChanged() {}` (plugin.hh:45). -/
def trackInfoChanged (p : Plugin) : Plugin := p

/-! ### Processing state and cached host info (plugin.hh:89-106) -/

/-- The accessor `isActive()` (plugin.hh:89). -/
def isActive (p : Plugin) : Bool := p.isActive_

/-- The accessor `isProcessing()` (plugin.hh:90). -/
def isProcessing (p : Plugin) : Bool := p.isProcessing_

/-- The accessor `hasTrackInfo()` (plugin.hh:96). -/
def hasTrackInfo (p : Plugin) : Bool := p.hasTrackInfo_

/-- The accessor `trackInfo()` (plugin.hh:97-100): `assert(hasTrackInfo_)`, then
`return trackInfo_`. -/
def trackInfo (p : Plugin) : Except AssertionFailure clap_track_info :=
  if p.hasTrackInfo_ then Except.ok p.trackInfo_
  else Except.error AssertionFailure.hasTrackInfo_

/-- The accessor `trackChannelCount()` (plugin.hh:101-103):
`hasTrackInfo_ ? trackInfo_.channel_count : 2`. -/
def trackChannelCount (p : Plugin) : Nat :=
  if p.hasTrackInfo_ then p.trackInfo_.channel_count else 2

/-- The accessor `trackChannelMap()` (plugin.hh:104-106):
`hasTrackInfo_ ? trackInfo_.channel_map : CLAP_CHMAP_STEREO`. -/
def trackChannelMap (p : Plugin) : clap_chmap :=
  if p.hasTrackInfo_ then p.trackInfo_.channel_map else clap_chmap.CLAP_CHMAP_STEREO

/-- Modelled from the spec: the body of `compareAudioPortsInfo(a, b)`, declared
at plugin.hh:83-84, is not under src/.  The spec has two ports matching when
their "(channel count, channel map, stable id) match".  The declared result
is a `uint32_t` whose encoding neither src/ nor the spec gives; the model keeps
the verdict, `true` for "reports equal". -/
def compareAudioPortsInfo (a b : clap_audio_port_info) : Bool :=
  a.channel_count == b.channel_count && a.channel_map == b.channel_map && a.id == b.id

/-- Modelled from the spec: the diff of two port lists made by
`updateAudioPorts()`, declared at plugin.hh:170, whose body is not under src/.
The spec has "a comparison that treats two port lists as equal iff same length
and each port's (channel count, channel map, stable id) match positionally". -/
def compareAudioPortsLists (previous current : List clap_audio_port_info) : Bool :=
  previous.length == current.length &&
    (List.zip previous current).all (fun ab => compareAudioPortsInfo ab.1 ab.2)

end Plugin

/-- The processing states the spec names: "enum {Inactive, Active-Idle,
Active-Processing} per instance". -/
inductive ProcessingState where
  | Inactive
  | ActiveIdle
  | ActiveProcessing
  deriving DecidableEq, Repr

/-- The processing state the two flags `isActive()` and `isProcessing()` stand
for, following the states of the spec; processing without being active is none
of the three. -/
def Plugin.processingState (p : Plugin) : Option ProcessingState :=
  match p.isActive, p.isProcessing with
  | false, false => some ProcessingState.Inactive
  | true, false => some ProcessingState.ActiveIdle
  | true, true => some ProcessingState.ActiveProcessing
  | false, true => none

/-! ### Lemmas on the fallback loop -/

theorem execIndices_append (xs ys : List Call) :
    execIndices (xs ++ ys) = execIndices xs ++ execIndices ys := by
  induction xs with
  | nil => rfl
  | cons c rest ih => cases c <;> simp [execIndices, ih]

theorem requestCounts_append (xs ys : List Call) :
    requestCounts (xs ++ ys) = requestCounts xs ++ requestCounts ys := by
  induction xs with
  | nil => rfl
  | cons c rest ih => cases c <;> simp [requestCounts, ih]

theorem execIndices_replicate (k N : Nat) :
    execIndices (List.replicate k (Call.exec N)) = List.replicate k N := by
  induction k with
  | zero => rfl
  | succ k ih => simp [List.replicate_succ, execIndices, ih]

theorem requestCounts_replicate (k N : Nat) :
    requestCounts (List.replicate k (Call.exec N)) = [] := by
  induction k with
  | zero => rfl
  | succ k ih => simp [List.replicate_succ, requestCounts, ih]

/-- The loop started at counter `i` appends `N - i` calls, each `exec N`. -/
theorem fallback_loop_eq (N : Nat) (k : Nat) :
    ∀ (i : Nat) (calls : List Call), N - i = k →
      fallback_loop N i calls = calls ++ List.replicate k (Call.exec N) := by
  induction k with
  | zero =>
    intro i calls h
    rw [fallback_loop]
    have : ¬ i < N := by omega
    simp [this]
  | succ k ih =>
    intro i calls h
    rw [fallback_loop]
    have hlt : i < N := by omega
    simp only [hlt, if_true]
    rw [ih (i + 1) _ (by omega)]
    simp [myplug_thread_pool_exec, List.replicate_succ]

theorem fallback_loop_zero (N : Nat) (calls : List Call) :
    fallback_loop N 0 calls = calls ++ List.replicate N (Call.exec N) :=
  fallback_loop_eq N N 0 calls (by omega)


theorem request_phase_didComputeVoices (hp : Option clap_host_thread_pool) (N : Nat) :
    (request_phase hp N).didComputeVoices = true ↔
      ∃ table f, hp = some table ∧ table.request_exec = some f ∧ f N = true := by
  constructor
  · intro h
    cases hp with
    | none => simp [request_phase] at h
    | some table =>
      cases hf : table.request_exec with
      | none => simp [request_phase, hf] at h
      | some f =>
        refine ⟨table, f, rfl, hf, ?_⟩
        simpa [request_phase, hf] using h
  · rintro ⟨table, f, rfl, hf, hres⟩
    simp [request_phase, hf, hres]

theorem request_phase_execIndices (hp : Option clap_host_thread_pool) (N : Nat) :
    execIndices (request_phase hp N).calls = [] := by
  cases hp with
  | none => rfl
  | some table =>
    cases hf : table.request_exec with
    | none => simp [request_phase, hf, execIndices]
    | some f => simp [request_phase, hf, execIndices]

theorem myplug_process_didComputeVoices (hp : Option clap_host_thread_pool) (N : Nat) :
    (myplug_process hp N).didComputeVoices = (request_phase hp N).didComputeVoices := by
  unfold myplug_process
  generalize request_phase hp N = run
  rcases run with ⟨d, c⟩
  cases d <;> simp

/-- The calls of a run: those of the guarded request, then the `N` calls of the
fallback loop when `didComputeVoices` stayed false. -/
theorem myplug_process_calls (hp : Option clap_host_thread_pool) (N : Nat) :
    (myplug_process hp N).calls =
      (request_phase hp N).calls ++
        (if (request_phase hp N).didComputeVoices then []
         else List.replicate N (Call.exec N)) := by
  unfold myplug_process
  generalize request_phase hp N = run
  rcases run with ⟨d, c⟩
  cases d <;> simp [fallback_loop_zero]

/-! ### Lemmas on the port comparison -/

theorem compareAudioPortsInfo_iff (a b : clap_audio_port_info) :
    Plugin.compareAudioPortsInfo a b = true ↔
      a.channel_count = b.channel_count ∧ a.channel_map = b.channel_map ∧ a.id = b.id := by
  simp [Plugin.compareAudioPortsInfo, and_assoc]

/-- On two lists of one length, every zipped pair satisfies `q` exactly when
the two entries of each position do. -/
theorem zip_all_iff (q : clap_audio_port_info → clap_audio_port_info → Bool) :
    ∀ (xs ys : List clap_audio_port_info), xs.length = ys.length →
      ((List.zip xs ys).all (fun ab => q ab.1 ab.2) = true ↔
        ∀ (i : Nat) (hx : i < xs.length) (hy : i < ys.length), q xs[i] ys[i] = true) := by
  intro xs
  induction xs with
  | nil =>
    intro ys _
    simp
  | cons x xs ih =>
    intro ys hlen
    cases ys with
    | nil => simp at hlen
    | cons y ys =>
      have hlen2 : xs.length = ys.length := by simpa using hlen
      simp only [List.zip_cons_cons, List.all_cons, Bool.and_eq_true, ih ys hlen2]
      constructor
      · rintro ⟨h0, hrest⟩ i hx hy
        cases i with
        | zero => simpa using h0
        | succ j =>
          simp only [List.getElem_cons_succ]
          exact hrest j (by simpa using hx) (by simpa using hy)
      · intro h
        refine ⟨?_, ?_⟩
        · simpa using h 0 (by simp) (by simp)
        · intro j hx hy
          simpa using h (j + 1) (by simpa using hx) (by simpa using hy)

/-! ## The documented thread-pool usage -/

/-- Claim C1, evaluated on the code: with a host table whose `request_exec`
rejects the request and N = 2, `myplug_process` asks the host once and then
calls `myplug_thread_pool_exec` twice with the index 2, not once with 0 and
once with 1. -/
theorem myplug_process_rejected_two :
    (myplug_process (some { request_exec := some (fun _ => false) }) 2).calls =
        [Call.request_exec 2, Call.exec 2, Call.exec 2] ∧
      execIndices (myplug_process (some { request_exec := some (fun _ => false) }) 2).calls =
        [2, 2] ∧
      execIndices (myplug_process (some { request_exec := some (fun _ => false) }) 2).calls ≠
        List.range 2 := by
  simp [myplug_process_calls, request_phase, execIndices, List.replicate, List.range_succ]

/-- Claim C3: with no host table (`host_thread_pool` null) and any N,
`myplug_process` never calls `request_exec` and makes exactly the N calls of the
sequential loop, and nothing else; the run is total. -/
theorem myplug_process_without_host_table (N : Nat) :
    requestCounts (myplug_process none N).calls = [] ∧
      (execIndices (myplug_process none N).calls).length = N ∧
      (myplug_process none N).calls = List.replicate N (Call.exec N) ∧
      (myplug_process none N).didComputeVoices = false := by
  have hcalls : (myplug_process none N).calls = List.replicate N (Call.exec N) := by
    simp [myplug_process_calls, request_phase]
  refine ⟨?_, ?_, hcalls, ?_⟩
  · rw [hcalls, requestCounts_replicate]
  · rw [hcalls, execIndices_replicate, List.length_replicate]
  · simp [myplug_process_didComputeVoices, request_phase]

/-- Claim C4: with a host table whose `request_exec` answers true for N,
`myplug_process` calls `request_exec` exactly once, with N, and makes no `exec`
call itself.  For every host pointer, `didComputeVoices` ends true exactly when
`request_exec` was called and answered true, and the fallback loop contributes
its N calls exactly when `didComputeVoices` ends false. -/
theorem myplug_process_host_executed (N : Nat) (table : clap_host_thread_pool)
    (f : Nat → Bool) (hf : table.request_exec = some f) (hres : f N = true) :
    (myplug_process (some table) N).calls = [Call.request_exec N] ∧
      requestCounts (myplug_process (some table) N).calls = [N] ∧
      execIndices (myplug_process (some table) N).calls = [] ∧
      (∀ hp : Option clap_host_thread_pool,
        ((myplug_process hp N).didComputeVoices = true ↔
          ∃ t g, hp = some t ∧ t.request_exec = some g ∧ g N = true) ∧
        execIndices (myplug_process hp N).calls =
          if (myplug_process hp N).didComputeVoices then [] else List.replicate N N) := by
  have hcalls : (myplug_process (some table) N).calls = [Call.request_exec N] := by
    simp [myplug_process_calls, request_phase, hf, hres]
  refine ⟨hcalls, ?_, ?_, ?_⟩
  · rw [hcalls]; rfl
  · rw [hcalls]; rfl
  · intro hp
    refine ⟨?_, ?_⟩
    · rw [myplug_process_didComputeVoices]
      exact request_phase_didComputeVoices hp N
    · rw [myplug_process_didComputeVoices, myplug_process_calls, execIndices_append,
        request_phase_execIndices]
      cases (request_phase hp N).didComputeVoices
      · simp [execIndices_replicate]
      · simp [execIndices]

theorem myplug_process_host_executed_witness :
    (myplug_process (some { request_exec := some (fun _ => true) }) 3).calls =
        [Call.request_exec 3] ∧
      requestCounts (myplug_process (some { request_exec := some (fun _ => true) }) 3).calls =
        [3] ∧
      execIndices (myplug_process (some { request_exec := some (fun _ => true) }) 3).calls =
        [] :=
  have h := myplug_process_host_executed 3 { request_exec := some (fun _ => true) }
    (fun _ => true) rfl rfl
  ⟨h.1, h.2.1, h.2.2.1⟩

/-! ## The base class of plugin.hh -/

/-- Claim C2: in every plugin state, without a track-info snapshot
`trackChannelCount()` is 2 and `trackChannelMap()` is `CLAP_CHMAP_STEREO`, and
with a snapshot they are the `channel_count` and the `channel_map` of
`trackInfo_`, unchanged. -/
theorem trackChannel_default_or_snapshot (p : Plugin) :
    (p.hasTrackInfo = false →
        p.trackChannelCount = 2 ∧ p.trackChannelMap = clap_chmap.CLAP_CHMAP_STEREO) ∧
      (p.hasTrackInfo = true →
        p.trackChannelCount = p.trackInfo_.channel_count ∧
          p.trackChannelMap = p.trackInfo_.channel_map) := by
  constructor
  · intro h
    have h2 : p.hasTrackInfo_ = false := h
    simp [Plugin.trackChannelCount, Plugin.trackChannelMap, h2]
  · intro h
    have h2 : p.hasTrackInfo_ = true := h
    simp [Plugin.trackChannelCount, Plugin.trackChannelMap, h2]

theorem trackChannel_default_or_snapshot_witness :
    ((Plugin.construct none ⟨6, clap_chmap.CLAP_CHMAP_SURROUND⟩).trackChannelCount = 2 ∧
        (Plugin.construct none ⟨6, clap_chmap.CLAP_CHMAP_SURROUND⟩).trackChannelMap =
          clap_chmap.CLAP_CHMAP_STEREO) ∧
      ({ Plugin.construct none ⟨6, clap_chmap.CLAP_CHMAP_SURROUND⟩ with
          hasTrackInfo_ := true }.trackChannelCount = 6 ∧
        { Plugin.construct none ⟨6, clap_chmap.CLAP_CHMAP_SURROUND⟩ with
          hasTrackInfo_ := true }.trackChannelMap = clap_chmap.CLAP_CHMAP_SURROUND) :=
  ⟨(trackChannel_default_or_snapshot
      (Plugin.construct none ⟨6, clap_chmap.CLAP_CHMAP_SURROUND⟩)).1 rfl,
    (trackChannel_default_or_snapshot
      { Plugin.construct none ⟨6, clap_chmap.CLAP_CHMAP_SURROUND⟩ with
        hasTrackInfo_ := true }).2 rfl⟩

/-- Claim C5: the default `extension(id)` returns null for every id and every
state, leaves the state as it was, and a second call with the same id returns
the same pointer as the first. -/
theorem extension_default_null (p : Plugin) (id : Option String) :
    (p.extension id).1 = none ∧
      (p.extension id).2 = p ∧
      ((p.extension id).2.extension id).1 = (p.extension id).1 :=
  ⟨rfl, rfl, rfl⟩

/-- Claim C6: with the default hooks, `init()` returns true, `activate(r)`
returns true for every sample rate r (48000 among them), `startProcessing()`
returns true, and `process(block)` returns `CLAP_PROCESS_SLEEP`, which is not
the error status, for every block; the same holds when the four hooks run one
after the other on the state the previous one left. -/
theorem default_hooks_succeed (p : Plugin) :
    p.init.1 = true ∧
      (p.activate 48000).1 = true ∧
      (∀ r : Int, (p.activate r).1 = true) ∧
      p.startProcessing.1 = true ∧
      (∀ (clap_process : Type) (block : Option clap_process),
        (p.process block).1 = clap_process_status.CLAP_PROCESS_SLEEP ∧
          (p.process block).1 ≠ clap_process_status.CLAP_PROCESS_ERROR ∧
          ((p.init.2.activate 48000).2.startProcessing.1 = true ∧
            ((p.init.2.activate 48000).2.startProcessing.2.process block).1 =
              clap_process_status.CLAP_PROCESS_SLEEP)) := by
  refine ⟨rfl, rfl, fun _ => rfl, rfl, ?_⟩
  intro clap_process block
  refine ⟨rfl, ?_, rfl, rfl⟩
  simp [Plugin.process]

/-- Claim C7: two port lists compare equal exactly when they have the same
length and, at every position, the same channel count, channel map and id; no
other field of a port has a say, so a list compares equal to itself with the
index and the direction of every port replaced. -/
theorem compareAudioPortsLists_iff (xs ys : List clap_audio_port_info) :
    (Plugin.compareAudioPortsLists xs ys = true ↔
        xs.length = ys.length ∧
          ∀ (i : Nat) (hx : i < xs.length) (hy : i < ys.length),
            xs[i].channel_count = ys[i].channel_count ∧
              xs[i].channel_map = ys[i].channel_map ∧ xs[i].id = ys[i].id) ∧
      (∀ (index : clap_audio_port_info → Nat) (is_input : clap_audio_port_info → Bool),
        Plugin.compareAudioPortsLists xs
          (xs.map (fun a => { a with index := index a, is_input := is_input a })) = true) := by
  have key : ∀ us vs : List clap_audio_port_info,
      (Plugin.compareAudioPortsLists us vs = true ↔
        us.length = vs.length ∧
          ∀ (i : Nat) (hx : i < us.length) (hy : i < vs.length),
            us[i].channel_count = vs[i].channel_count ∧
              us[i].channel_map = vs[i].channel_map ∧ us[i].id = vs[i].id) := by
    intro us vs
    unfold Plugin.compareAudioPortsLists
    rw [Bool.and_eq_true, beq_iff_eq]
    constructor
    · rintro ⟨hlen, hall⟩
      refine ⟨hlen, fun i hx hy => ?_⟩
      exact (compareAudioPortsInfo_iff _ _).1
        ((zip_all_iff Plugin.compareAudioPortsInfo us vs hlen).1 hall i hx hy)
    · rintro ⟨hlen, hall⟩
      refine ⟨hlen, (zip_all_iff Plugin.compareAudioPortsInfo us vs hlen).2 ?_⟩
      intro i hx hy
      exact (compareAudioPortsInfo_iff _ _).2 (hall i hx hy)
  refine ⟨key xs ys, ?_⟩
  intro index is_input
  rw [key]
  refine ⟨by simp, ?_⟩
  intro i hx hy
  simp

/-- Claim C8: the default `defineAudioPorts` returns both port lists as it was
given them, so from two empty lists it declares 0 input and 0 output ports; the
two port lists of a newly constructed instance are empty; and the default
`shouldInvalidateAudioPortsDefinitionOnTrackChannelChange()` returns false. -/
theorem defineAudioPorts_default_declares_nothing (p : Plugin)
    (inputPorts outputPorts : List clap_audio_port_info) :
    p.defineAudioPorts inputPorts outputPorts = (inputPorts, outputPorts, p) ∧
      (p.defineAudioPorts [] []).1.length = 0 ∧
      (p.defineAudioPorts [] []).2.1.length = 0 ∧
      (∀ (host : Option Nat) (uninitialised : clap_track_info),
        (Plugin.construct host uninitialised).inputAudioPorts_ = [] ∧
          (Plugin.construct host uninitialised).outputAudioPorts_ = []) ∧
      p.shouldInvalidateAudioPortsDefinitionOnTrackChannelChange = false :=
  ⟨rfl, rfl, rfl, fun _ _ => ⟨rfl, rfl⟩, rfl⟩

/-- Claim C9: a newly constructed instance is not active and not processing,
stores the sample rate 0, holds no track info, has no audio-ports update
scheduled and has every cached host table pointer null; processing implies
active in it, and its processing state is Inactive. -/
theorem construct_initial_state (host : Option Nat) (uninitialised : clap_track_info) :
    (Plugin.construct host uninitialised).isActive = false ∧
      (Plugin.construct host uninitialised).isProcessing = false ∧
      (Plugin.construct host uninitialised).sampleRate_ = 0 ∧
      (Plugin.construct host uninitialised).hasTrackInfo = false ∧
      (Plugin.construct host uninitialised).scheduleAudioPortsUpdate_ = false ∧
      ((Plugin.construct host uninitialised).hostLog_ = none ∧
        (Plugin.construct host uninitialised).hostThreadCheck_ = none ∧
        (Plugin.construct host uninitialised).hostThreadPool_ = none ∧
        (Plugin.construct host uninitialised).hostAudioPorts_ = none ∧
        (Plugin.construct host uninitialised).hostEventFilter_ = none ∧
        (Plugin.construct host uninitialised).hostFileReference_ = none ∧
        (Plugin.construct host uninitialised).hostLatency_ = none ∧
        (Plugin.construct host uninitialised).hostGui_ = none ∧
        (Plugin.construct host uninitialised).hostEventLoop_ = none ∧
        (Plugin.construct host uninitialised).hostParams_ = none ∧
        (Plugin.construct host uninitialised).hostTrackInfo_ = none ∧
        (Plugin.construct host uninitialised).hostState_ = none ∧
        (Plugin.construct host uninitialised).hostNoteName_ = none) ∧
      (!(Plugin.construct host uninitialised).isProcessing ||
        (Plugin.construct host uninitialised).isActive) = true ∧
      (Plugin.construct host uninitialised).processingState = some ProcessingState.Inactive :=
  ⟨rfl, rfl, rfl, rfl, rfl,
    ⟨rfl, rfl, rfl, rfl, rfl, rfl, rfl, rfl, rfl, rfl, rfl, rfl, rfl⟩, rfl, rfl⟩

/-- Claim C10: `trackInfo()` passes its assertion and returns the stored
snapshot in every state with `hasTrackInfo()` true, and fails the assertion in
every state with `hasTrackInfo()` false; so it succeeds exactly when
`hasTrackInfo()` is true.  `trackChannelCount()` and `trackChannelMap()` have no
assertion: where `trackInfo()` fails they still return 2 and
`CLAP_CHMAP_STEREO`. -/
theorem trackInfo_assertion (p : Plugin) :
    (p.hasTrackInfo = true → p.trackInfo = Except.ok p.trackInfo_) ∧
      (p.hasTrackInfo = false →
        p.trackInfo = Except.error AssertionFailure.hasTrackInfo_ ∧
          p.trackChannelCount = 2 ∧ p.trackChannelMap = clap_chmap.CLAP_CHMAP_STEREO) ∧
      ((∃ info, p.trackInfo = Except.ok info) ↔ p.hasTrackInfo = true) ∧
      (∃ n map, p.trackChannelCount = n ∧ p.trackChannelMap = map) := by
  have hdef : p.hasTrackInfo = p.hasTrackInfo_ := rfl
  refine ⟨?_, ?_, ?_, ⟨_, _, rfl, rfl⟩⟩
  · intro h
    rw [hdef] at h
    simp [Plugin.trackInfo, h]
  · intro h
    rw [hdef] at h
    simp [Plugin.trackInfo, Plugin.trackChannelCount, Plugin.trackChannelMap, h]
  · rw [hdef]
    cases h : p.hasTrackInfo_ <;> simp [Plugin.trackInfo, h]

theorem trackInfo_assertion_witness :
    { Plugin.construct (some 1) ⟨1, clap_chmap.CLAP_CHMAP_MONO⟩ with
        hasTrackInfo_ := true }.trackInfo = Except.ok ⟨1, clap_chmap.CLAP_CHMAP_MONO⟩ ∧
      ((Plugin.construct (some 1) ⟨1, clap_chmap.CLAP_CHMAP_MONO⟩).trackInfo =
          Except.error AssertionFailure.hasTrackInfo_ ∧
        (Plugin.construct (some 1) ⟨1, clap_chmap.CLAP_CHMAP_MONO⟩).trackChannelCount = 2 ∧
        (Plugin.construct (some 1) ⟨1, clap_chmap.CLAP_CHMAP_MONO⟩).trackChannelMap =
          clap_chmap.CLAP_CHMAP_STEREO) :=
  ⟨(trackInfo_assertion
      { Plugin.construct (some 1) ⟨1, clap_chmap.CLAP_CHMAP_MONO⟩ with
        hasTrackInfo_ := true }).1 rfl,
    (trackInfo_assertion (Plugin.construct (some 1) ⟨1, clap_chmap.CLAP_CHMAP_MONO⟩)).2.1 rfl⟩

end clap
